import Mathlib

/-!
Verification development for the Solana smart-money tracker
(`src/main.py`).  The signal-detection pipeline is embedded shallowly:
every Python function with decision logic becomes a Lean definition over
`Nat` / `ℚ` / `List`, and the claimed properties are proved (or refuted)
about those definitions.
-/

namespace SolanaTracker

/-- Signal strength tiers of `SmartMoneyTracker.TIERS` (`main.py` 148-173).
`determine_tier` returns one of these or Python `None`, modelled as
`Option Tier`. -/
inductive Tier where
  | FIRST_CALL
  | MEDIUM
  | STRONG
  | VERY_STRONG
deriving DecidableEq, Repr

/-- The dict returned by `SmartMoneyTracker.calculate_metrics`
(`main.py` 214-221). -/
structure Metrics where
  recent_buys : Nat
  volume : ℚ
  avg_buy : ℚ
  buys_5min : Nat
  buys_1h : Nat
  volume_5min : ℚ
deriving DecidableEq, Repr

/-- The fields of a Dexscreener pair object that the tracker's decision
logic reads: 5-minute and 1-hour buy counts, 5-minute volume, liquidity,
creation timestamp (epoch milliseconds, absent when the API omits it),
and identifying strings. -/
structure PairSnapshot where
  pairAddress : String
  tokenAddress : String
  symbol : String
  name : String
  priceUsd : ℚ
  liquidityUsd : ℚ
  pairCreatedAt : Option Nat
  buys5m : Nat
  buys1h : Nat
  volume5m : ℚ
deriving DecidableEq, Repr

/-- `SmartMoneyTracker.calculate_metrics` (`main.py` 175-224).
Rejects when 1-hour buys are below 5; scales the 5-minute aggregates by
0.5 (`int(buys_5min * 0.5)` is floor division by 2 on a non-negative
count); rejects when `recent_buys < 1` or the scaled volume is below 50;
the average buy size is guarded against division by zero. -/
def calculate_metrics (pair : PairSnapshot) : Option Metrics :=
  let buys_5min := pair.buys5m
  let buys_1h := pair.buys1h
  if buys_1h < 5 then none
  else
    let recent_buys := buys_5min / 2
    let volume_5min := pair.volume5m
    let volume_2_3min := volume_5min / 2
    let avg_buy := if 0 < recent_buys then volume_2_3min / recent_buys else 0
    if recent_buys < 1 ∨ volume_2_3min < 50 then none
    else some ⟨recent_buys, volume_2_3min, avg_buy, buys_5min, buys_1h, volume_5min⟩

/-- `SmartMoneyTracker.determine_tier` (`main.py` 226-252): first match
wins, checked from VERY_STRONG down; VERY_STRONG is an OR over two
thresholds, the lower tiers are ANDs over three. -/
def determine_tier (m : Metrics) : Option Tier :=
  if 80 ≤ m.recent_buys ∨ 20000 ≤ m.volume then some .VERY_STRONG
  else if 45 ≤ m.recent_buys ∧ 10000 ≤ m.volume ∧ 100 ≤ m.avg_buy then some .STRONG
  else if 30 ≤ m.recent_buys ∧ 6000 ≤ m.volume ∧ 75 ≤ m.avg_buy then some .MEDIUM
  else if 20 ≤ m.recent_buys ∧ 3000 ≤ m.volume ∧ 50 ≤ m.avg_buy then some .FIRST_CALL
  else none

/-- Rank of a classification result under the order
NONE < FIRST_CALL < MEDIUM < STRONG < VERY_STRONG. -/
def tierRank : Option Tier → Nat
  | none => 0
  | some .FIRST_CALL => 1
  | some .MEDIUM => 2
  | some .STRONG => 3
  | some .VERY_STRONG => 4

/-- The `tier_priority` dict of `scan_for_signals` (`main.py` 403-408). -/
def tierPriority : Tier → Nat
  | .VERY_STRONG => 4
  | .STRONG => 3
  | .MEDIUM => 2
  | .FIRST_CALL => 1

/-- The `checks` dict of `perform_safety_checks` (`main.py` 254-277),
restricted to the two fields with logic. -/
structure SafetyVerdict where
  liquidity_ok : Bool
  age_ok : Bool
deriving DecidableEq, Repr

/-- `SmartMoneyTracker.perform_safety_checks` (`main.py` 254-277).
`now` is `datetime.now().timestamp()` in seconds.  The Python guard
`if pair_created:` skips both a missing timestamp and a zero one
(falsy), leaving `age_ok` at its fail-closed default `False`. -/
def perform_safety_checks (pair : PairSnapshot) (now : ℚ) : SafetyVerdict :=
  { liquidity_ok := decide (5000 < pair.liquidityUsd)
    age_ok :=
      match pair.pairCreatedAt with
      | none => false
      | some t =>
        if t = 0 then false
        else decide ((now - (t : ℚ) / 1000) / 3600 < 240) }

/-- A row of the `calls` table (`main.py` 20-33), restricted to the
columns the subsystem reads and writes.  `call_time` is an abstract
timestamp. -/
structure CallRecord where
  token_address : String
  pair_address : String
  symbol : String
  name : String
  initial_price : ℚ
  peak_price : ℚ
  tier : String
  call_time : Nat
deriving DecidableEq, Repr

/-- `save_call` (`main.py` 62-74): appends one row, inserting
`initial_price` for both the `initial_price` and `peak_price` columns.
The database is modelled as the list of rows in insertion order. -/
def save_call (db : List CallRecord) (token_address pair_address symbol name : String)
    (initial_price : ℚ) (tier : String) (t : Nat) : List CallRecord :=
  db ++ [⟨token_address, pair_address, symbol, name, initial_price, initial_price, tier, t⟩]

/-- `update_peak_price` (`main.py` 76-91): the SQL
`UPDATE calls SET peak_price = ? WHERE pair_address = ? AND peak_price < ?`
rewrites every matching row; the function returns whether any row was
affected. -/
def update_peak_price (db : List CallRecord) (pair_address : String) (new_peak : ℚ) :
    List CallRecord × Bool :=
  (db.map fun r =>
    if r.pair_address = pair_address ∧ r.peak_price < new_peak then
      { r with peak_price := new_peak }
    else r,
  db.any fun r => decide (r.pair_address = pair_address ∧ r.peak_price < new_peak))

/-- A sequence of Peak Tracker writes (`update_peak_prices`, `main.py`
280-314, issues one `update_peak_price` per fetched pair) applied in
order. -/
def applyPeakUpdates (db : List CallRecord) (ups : List (String × ℚ)) : List CallRecord :=
  ups.foldl (fun d u => (update_peak_price d u.1 u.2).1) db

/-- Python `set.add` on the contents of `SmartMoneyTracker.alerted_tokens`
(`main.py` 441): the set's contents, bookkept as a duplicate-free list. -/
def insertSet {α : Type} [DecidableEq α] (s : List α) (x : α) : List α :=
  if x ∈ s then s else s ++ [x]

/-- The per-alert insert-and-trim step on `alerted_tokens` (`main.py`
441 and 457-462): add the pair identity, then, when the size exceeds
100, drop `list(set)[0]` — the head of whatever enumeration order the
runtime's unordered set yields, here an explicit parameter `order`
(any permutation of the contents is a legal enumeration). -/
def insertAndTrim {α : Type} [DecidableEq α] (order : List α → List α)
    (s : List α) (x : α) : List α :=
  let s1 := insertSet s x
  if 100 < s1.length then (order s1).drop 1 else s1

/-- The cross-cycle mutable state of the scan loop: the dedup ledger
(`alerted_tokens`) contents and the persisted `calls` rows. -/
structure ScanState where
  alerted : List String
  calls : List CallRecord
deriving DecidableEq, Repr

/-- The alert-commit sequence of `scan_for_signals` (`main.py` 440-462)
for the winning candidate: mark the pair in `alerted_tokens` (line 441),
then `save_call` (line 454), then trim the set (lines 457-462).
`persistOk = false` models `save_call` raising (store unavailable): the
exception propagates to the handler at line 484, so the statements after
`save_call` do not run, and nothing is rolled back or retried. -/
def commitAlert (order : List String → List String) (st : ScanState)
    (rec : CallRecord) (persistOk : Bool) : ScanState :=
  let alerted1 := insertSet st.alerted rec.pair_address
  if persistOk then
    let calls1 := st.calls ++ [rec]
    let alerted2 := if 100 < alerted1.length then (order alerted1).drop 1 else alerted1
    ⟨alerted2, calls1⟩
  else ⟨alerted1, st.calls⟩

/-- One entry of `all_signals` (`main.py` 410-417), restricted to the
fields the ranking reads plus the pair identity. -/
structure Candidate where
  pairAddress : String
  tier : Tier
  priority : Nat
  volume : ℚ
deriving DecidableEq, Repr

/-- The sort key comparison of `all_signals.sort(key=..., reverse=True)`
(`main.py` 429): `x` ranks no higher than `y` when the pair
`(priority, volume)` of `x` is lexicographically at most that of `y`. -/
def keyLe (x y : Candidate) : Prop :=
  x.priority < y.priority ∨ (x.priority = y.priority ∧ x.volume ≤ y.volume)

instance : DecidableRel keyLe := fun _ _ => inferInstanceAs (Decidable (_ ∨ _))

/-- Insert a candidate into a list sorted in descending key order,
before the first element it outranks or ties with (a stable descending
sort, as Python's `sort(reverse=True)` is). -/
def insertDesc (x : Candidate) : List Candidate → List Candidate
  | [] => [x]
  | y :: ys => if keyLe y x then x :: y :: ys else y :: insertDesc x ys

/-- `all_signals.sort(key=lambda s: (priority, volume), reverse=True)`
(`main.py` 429) as an insertion sort in descending lexicographic key
order. -/
def sortSignals (l : List Candidate) : List Candidate :=
  l.foldr insertDesc []

/-- The Best-Candidate Ranker of `scan_for_signals` (`main.py` 428-433):
sort the collected signals descending and alert only `all_signals[0]`,
or nothing when the cycle produced no qualifier. -/
def selectBest (l : List Candidate) : Option Candidate :=
  (sortSignals l).head?

/-- Modelled from the spec: the category-search mode and its Fallback
Scorer (spec section 4.6) are absent from `src/main.py`; only the tiered
scanner is present.  A candidate as the category mode sees it: identity,
liquidity, valuation, age and short-window transaction count. -/
structure CategorySnapshot where
  pairAddress : String
  liquidity : ℚ
  valuation : ℚ
  ageHours : ℚ
  txCount : Nat
deriving DecidableEq, Repr

/-- Modelled from the spec: a named category filter with bound ranges on
liquidity, valuation and age, and a floor on the short-window
transaction count (spec section 4.6). -/
structure CategoryFilter where
  liqLo : ℚ
  liqHi : ℚ
  valLo : ℚ
  valHi : ℚ
  ageLo : ℚ
  ageHi : ℚ
  txFloor : Nat
deriving DecidableEq, Repr

/-- Modelled from the spec: membership of a value in a configured bound
range. -/
def inRange (lo hi x : ℚ) : Bool :=
  decide (lo ≤ x ∧ x ≤ hi)

/-- Modelled from the spec: step 1 of the Fallback Scorer — a candidate
satisfying every configured bound of the category. -/
def exactMatch (cfg : CategoryFilter) (c : CategorySnapshot) : Bool :=
  inRange cfg.liqLo cfg.liqHi c.liquidity &&
  inRange cfg.valLo cfg.valHi c.valuation &&
  inRange cfg.ageLo cfg.ageHi c.ageHours &&
  decide (cfg.txFloor ≤ c.txCount)

/-- Modelled from the spec: the liquidity component of the proximity
score — +100 inside the range, otherwise up to +50 scaled linearly by
inverse relative distance from the nearer bound, floored at 0. -/
def liqScore (cfg : CategoryFilter) (c : CategorySnapshot) : ℚ :=
  if inRange cfg.liqLo cfg.liqHi c.liquidity then 100
  else if c.liquidity < cfg.liqLo then
    max 0 (50 * (1 - (cfg.liqLo - c.liquidity) / cfg.liqLo))
  else
    max 0 (50 * (1 - (c.liquidity - cfg.liqHi) / cfg.liqHi))

/-- Modelled from the spec: step 2 of the Fallback Scorer — the additive
proximity score of one candidate against the category's bounds. -/
def proximityScore (cfg : CategoryFilter) (c : CategorySnapshot) : ℚ :=
  liqScore cfg c +
  (if inRange cfg.valLo cfg.valHi c.valuation then 50 else 0) +
  (if inRange cfg.ageLo cfg.ageHi c.ageHours then 50 else 0) +
  (if cfg.txFloor ≤ c.txCount then 30 else 0)

/-- Modelled from the spec: maximum-score selection with ties broken by
first-encountered order — a left fold that replaces the champion only on
a strictly larger score. -/
def bestScored (cfg : CategoryFilter) (l : List CategorySnapshot) :
    Option (CategorySnapshot × ℚ) :=
  l.foldl
    (fun acc c =>
      match acc with
      | none => some (c, proximityScore cfg c)
      | some (y, s) =>
        if s < proximityScore cfg c then some (c, proximityScore cfg c) else some (y, s))
    none

/-- Modelled from the spec: the Fallback Scorer / `selectForCategory`
operation (spec sections 4.6 and 6), absent from `src/main.py`.  Filter
out already-shown candidates; try an exact category match; otherwise
take the best proximity score when it is positive; otherwise fall back
to the first unseen candidate with liquidity above the absolute floor of
5000. -/
def selectForCategory (pool : List CategorySnapshot) (cfg : CategoryFilter)
    (alreadyShown : List String) : Option CategorySnapshot :=
  let unseen := pool.filter fun c => !(alreadyShown.contains c.pairAddress)
  match unseen.find? (exactMatch cfg) with
  | some c => some c
  | none =>
    match bestScored cfg unseen with
    | none => none
    | some (c, s) =>
      if 0 < s then some c
      else unseen.find? fun c => decide (5000 < c.liquidity)

/-- A concrete snapshot used to instantiate proved properties:
10 hourly buys, 60 five-minute buys, 8000 five-minute volume. -/
def samplePair : PairSnapshot :=
  ⟨"PAIR1", "TOK1", "SYM1", "NAME1", 1, 6000, some 1000, 60, 10, 8000⟩

/-- The metrics `calculate_metrics` derives from `samplePair`. -/
def sampleMetrics : Metrics :=
  ⟨30, 4000, 400 / 3, 60, 10, 8000⟩

/-- A second concrete snapshot: 20 hourly buys, 100 five-minute buys,
30000 five-minute volume. -/
def samplePair2 : PairSnapshot :=
  ⟨"PAIR2", "TOK2", "SYM2", "NAME2", 1, 6000, some 1000, 100, 20, 30000⟩

/-- The metrics `calculate_metrics` derives from `samplePair2`. -/
def sampleMetrics2 : Metrics :=
  ⟨50, 15000, 300, 100, 20, 30000⟩

/-- A concrete snapshot created 1000 seconds before `1700000000`
(timestamps in epoch milliseconds in the snapshot). -/
def pairRecent : PairSnapshot :=
  ⟨"PAIR3", "TOK3", "SYM3", "NAME3", 1, 6000, some 1699999000000, 60, 10, 8000⟩

/-- Claim C1: `determine_tier` assigns exactly the tier of the spec's
table, evaluated in descending severity with first match winning:
VERY_STRONG iff recentBuys ≥ 80 or windowVolume ≥ 20000; otherwise
STRONG iff recentBuys ≥ 45 and windowVolume ≥ 10000 and
averageBuySize ≥ 100; otherwise MEDIUM iff recentBuys ≥ 30 and
windowVolume ≥ 6000 and averageBuySize ≥ 75; otherwise FIRST_CALL iff
recentBuys ≥ 20 and windowVolume ≥ 3000 and averageBuySize ≥ 50;
otherwise NONE.  In particular any Metrics with recentBuys ≥ 80 or
windowVolume ≥ 20000 is VERY_STRONG regardless of averageBuySize. -/
theorem determine_tier_matches_table (m : Metrics) :
    (determine_tier m = some .VERY_STRONG ↔
      80 ≤ m.recent_buys ∨ 20000 ≤ m.volume)
    ∧ (determine_tier m = some .STRONG ↔
      ¬(80 ≤ m.recent_buys ∨ 20000 ≤ m.volume)
      ∧ (45 ≤ m.recent_buys ∧ 10000 ≤ m.volume ∧ 100 ≤ m.avg_buy))
    ∧ (determine_tier m = some .MEDIUM ↔
      ¬(80 ≤ m.recent_buys ∨ 20000 ≤ m.volume)
      ∧ ¬(45 ≤ m.recent_buys ∧ 10000 ≤ m.volume ∧ 100 ≤ m.avg_buy)
      ∧ (30 ≤ m.recent_buys ∧ 6000 ≤ m.volume ∧ 75 ≤ m.avg_buy))
    ∧ (determine_tier m = some .FIRST_CALL ↔
      ¬(80 ≤ m.recent_buys ∨ 20000 ≤ m.volume)
      ∧ ¬(45 ≤ m.recent_buys ∧ 10000 ≤ m.volume ∧ 100 ≤ m.avg_buy)
      ∧ ¬(30 ≤ m.recent_buys ∧ 6000 ≤ m.volume ∧ 75 ≤ m.avg_buy)
      ∧ (20 ≤ m.recent_buys ∧ 3000 ≤ m.volume ∧ 50 ≤ m.avg_buy))
    ∧ (determine_tier m = none ↔
      ¬(80 ≤ m.recent_buys ∨ 20000 ≤ m.volume)
      ∧ ¬(45 ≤ m.recent_buys ∧ 10000 ≤ m.volume ∧ 100 ≤ m.avg_buy)
      ∧ ¬(30 ≤ m.recent_buys ∧ 6000 ≤ m.volume ∧ 75 ≤ m.avg_buy)
      ∧ ¬(20 ≤ m.recent_buys ∧ 3000 ≤ m.volume ∧ 50 ≤ m.avg_buy))
    ∧ (80 ≤ m.recent_buys ∨ 20000 ≤ m.volume →
      determine_tier m = some .VERY_STRONG) := by
  unfold determine_tier
  split_ifs with h4 h3 h2 h1 <;> simp_all

/-- Claim C5: `calculate_metrics` returns no-signal exactly when hourly
buys are below 5, or `floor(buys5m * 0.5) < 1`, or
`volume5m * 0.5 < 50`; otherwise it returns Metrics with
`recentBuys = floor(buys5m * 0.5)`, `windowVolume = volume5m * 0.5` and
`averageBuySize = windowVolume / recentBuys`.  In particular hourly
buys = 3 always yields no-signal. -/
theorem calculate_metrics_spec (pair : PairSnapshot) :
    (calculate_metrics pair = none ↔
      pair.buys1h < 5 ∨ pair.buys5m / 2 < 1 ∨ pair.volume5m / 2 < 50)
    ∧ ∀ m, calculate_metrics pair = some m →
        m.recent_buys = pair.buys5m / 2
        ∧ m.volume = pair.volume5m / 2
        ∧ m.avg_buy = m.volume / (m.recent_buys : ℚ) := by
  unfold calculate_metrics
  dsimp only
  by_cases h1 : pair.buys1h < 5
  · rw [if_pos h1]
    exact ⟨by simp [h1], by intro m h; cases h⟩
  · rw [if_neg h1]
    by_cases h2 : pair.buys5m / 2 < 1 ∨ pair.volume5m / 2 < 50
    · rw [if_pos h2]
      exact ⟨iff_of_true rfl (Or.inr h2), by intro m h; cases h⟩
    · rw [if_neg h2]
      push_neg at h2
      have hpos : 0 < pair.buys5m / 2 := by omega
      rw [if_pos hpos]
      refine ⟨?_, ?_⟩
      · constructor
        · intro h
          simp at h
        · rintro (h | h | h)
          · exact absurd h h1
          · omega
          · exact absurd h (not_lt.mpr h2.2)
      · intro m h
        rw [Option.some.injEq] at h
        subst h
        exact ⟨rfl, rfl, rfl⟩

/-- Claim C10: every Metrics that `calculate_metrics` actually returns
has `recent_buys ≥ 1` and `volume ≥ 50`, so its `avg_buy` equals
`volume / recent_buys` exactly — the division-by-zero guard that would
set it to 0 is unreachable in a returned value. -/
theorem calculate_metrics_guard_unreachable (pair : PairSnapshot) (m : Metrics)
    (h : calculate_metrics pair = some m) :
    1 ≤ m.recent_buys ∧ 50 ≤ m.volume
    ∧ m.avg_buy = m.volume / (m.recent_buys : ℚ) := by
  unfold calculate_metrics at h
  dsimp only at h
  by_cases h1 : pair.buys1h < 5
  · rw [if_pos h1] at h
    cases h
  · rw [if_neg h1] at h
    by_cases h2 : pair.buys5m / 2 < 1 ∨ pair.volume5m / 2 < 50
    · rw [if_pos h2] at h
      cases h
    · rw [if_neg h2] at h
      push_neg at h2
      have hpos : 0 < pair.buys5m / 2 := by omega
      rw [if_pos hpos] at h
      rw [Option.some.injEq] at h
      subst h
      exact ⟨h2.1, h2.2, rfl⟩

/-- Witness for C1: a Metrics with 85 recent buys and low volume and
zero average is still VERY_STRONG. -/
theorem determine_tier_matches_table_witness :
    determine_tier ⟨85, 100, 0, 170, 10, 200⟩ = some .VERY_STRONG :=
  (determine_tier_matches_table ⟨85, 100, 0, 170, 10, 200⟩).2.2.2.2.2
    (Or.inl (by decide))

/-- Witness for C5: the metrics returned for `samplePair` carry exactly
the scaled values. -/
theorem calculate_metrics_spec_witness :
    sampleMetrics.recent_buys = samplePair.buys5m / 2
    ∧ sampleMetrics.volume = samplePair.volume5m / 2
    ∧ sampleMetrics.avg_buy = sampleMetrics.volume / (sampleMetrics.recent_buys : ℚ) :=
  (calculate_metrics_spec samplePair).2 sampleMetrics
    (by simp [calculate_metrics, samplePair, sampleMetrics]; norm_num)

/-- Witness for C10: the metrics returned for `samplePair2` satisfy the
noise floor, and the average is the exact quotient. -/
theorem calculate_metrics_guard_unreachable_witness :
    1 ≤ sampleMetrics2.recent_buys ∧ 50 ≤ sampleMetrics2.volume
    ∧ sampleMetrics2.avg_buy = sampleMetrics2.volume / (sampleMetrics2.recent_buys : ℚ) :=
  calculate_metrics_guard_unreachable samplePair2 sampleMetrics2
    (by simp [calculate_metrics, samplePair2, sampleMetrics2]; norm_num)

/-- Helper: the VERY_STRONG predicate forces the first branch of
`determine_tier`. -/
theorem determine_tier_eq_vs (m : Metrics)
    (h : 80 ≤ m.recent_buys ∨ 20000 ≤ m.volume) :
    determine_tier m = some .VERY_STRONG := by
  unfold determine_tier
  rw [if_pos h]

/-- Helper: a Metrics satisfying the STRONG predicate ranks at least 3. -/
theorem tierRank_ge_of_strong (m : Metrics)
    (h : 45 ≤ m.recent_buys ∧ 10000 ≤ m.volume ∧ 100 ≤ m.avg_buy) :
    3 ≤ tierRank (determine_tier m) := by
  unfold determine_tier
  by_cases h4 : 80 ≤ m.recent_buys ∨ 20000 ≤ m.volume
  · rw [if_pos h4]
    decide
  · rw [if_neg h4, if_pos h]
    decide

/-- Helper: a Metrics satisfying the MEDIUM predicate ranks at least 2. -/
theorem tierRank_ge_of_medium (m : Metrics)
    (h : 30 ≤ m.recent_buys ∧ 6000 ≤ m.volume ∧ 75 ≤ m.avg_buy) :
    2 ≤ tierRank (determine_tier m) := by
  unfold determine_tier
  by_cases h4 : 80 ≤ m.recent_buys ∨ 20000 ≤ m.volume
  · rw [if_pos h4]
    decide
  · rw [if_neg h4]
    by_cases h3 : 45 ≤ m.recent_buys ∧ 10000 ≤ m.volume ∧ 100 ≤ m.avg_buy
    · rw [if_pos h3]
      decide
    · rw [if_neg h3, if_pos h]
      decide

/-- Helper: a Metrics satisfying the FIRST_CALL predicate ranks at
least 1. -/
theorem tierRank_ge_of_first_call (m : Metrics)
    (h : 20 ≤ m.recent_buys ∧ 3000 ≤ m.volume ∧ 50 ≤ m.avg_buy) :
    1 ≤ tierRank (determine_tier m) := by
  unfold determine_tier
  by_cases h4 : 80 ≤ m.recent_buys ∨ 20000 ≤ m.volume
  · rw [if_pos h4]
    decide
  · rw [if_neg h4]
    by_cases h3 : 45 ≤ m.recent_buys ∧ 10000 ≤ m.volume ∧ 100 ≤ m.avg_buy
    · rw [if_pos h3]
      decide
    · rw [if_neg h3]
      by_cases h2 : 30 ≤ m.recent_buys ∧ 6000 ≤ m.volume ∧ 75 ≤ m.avg_buy
      · rw [if_pos h2]
        decide
      · rw [if_neg h2, if_pos h]
        decide

/-- Claim C7: raising exactly one of the three metric dimensions while
the other two stay equal never lowers the assigned tier, under the
order NONE < FIRST_CALL < MEDIUM < STRONG < VERY_STRONG. -/
theorem determine_tier_monotone (m m' : Metrics)
    (h : (m.recent_buys ≤ m'.recent_buys ∧ m.volume = m'.volume ∧ m.avg_buy = m'.avg_buy)
      ∨ (m.recent_buys = m'.recent_buys ∧ m.volume ≤ m'.volume ∧ m.avg_buy = m'.avg_buy)
      ∨ (m.recent_buys = m'.recent_buys ∧ m.volume = m'.volume ∧ m.avg_buy ≤ m'.avg_buy)) :
    tierRank (determine_tier m) ≤ tierRank (determine_tier m') := by
  have hrb : m.recent_buys ≤ m'.recent_buys := by
    rcases h with ⟨h1, _, _⟩ | ⟨h1, _, _⟩ | ⟨h1, _, _⟩ <;> omega
  have hvol : m.volume ≤ m'.volume := by
    rcases h with ⟨_, h2, _⟩ | ⟨_, h2, _⟩ | ⟨_, h2, _⟩ <;>
      first
      | exact h2
      | exact le_of_eq h2
  have havg : m.avg_buy ≤ m'.avg_buy := by
    rcases h with ⟨_, _, h3⟩ | ⟨_, _, h3⟩ | ⟨_, _, h3⟩ <;>
      first
      | exact h3
      | exact le_of_eq h3
  have i4 : 80 ≤ m.recent_buys ∨ 20000 ≤ m.volume →
      80 ≤ m'.recent_buys ∨ 20000 ≤ m'.volume := by
    rintro (hx | hx)
    · exact Or.inl (le_trans hx hrb)
    · exact Or.inr (le_trans hx hvol)
  have i3 : 45 ≤ m.recent_buys ∧ 10000 ≤ m.volume ∧ 100 ≤ m.avg_buy →
      45 ≤ m'.recent_buys ∧ 10000 ≤ m'.volume ∧ 100 ≤ m'.avg_buy :=
    fun hx => ⟨le_trans hx.1 hrb, le_trans hx.2.1 hvol, le_trans hx.2.2 havg⟩
  have i2 : 30 ≤ m.recent_buys ∧ 6000 ≤ m.volume ∧ 75 ≤ m.avg_buy →
      30 ≤ m'.recent_buys ∧ 6000 ≤ m'.volume ∧ 75 ≤ m'.avg_buy :=
    fun hx => ⟨le_trans hx.1 hrb, le_trans hx.2.1 hvol, le_trans hx.2.2 havg⟩
  have i1 : 20 ≤ m.recent_buys ∧ 3000 ≤ m.volume ∧ 50 ≤ m.avg_buy →
      20 ≤ m'.recent_buys ∧ 3000 ≤ m'.volume ∧ 50 ≤ m'.avg_buy :=
    fun hx => ⟨le_trans hx.1 hrb, le_trans hx.2.1 hvol, le_trans hx.2.2 havg⟩
  by_cases h4 : 80 ≤ m.recent_buys ∨ 20000 ≤ m.volume
  · rw [determine_tier_eq_vs m h4, determine_tier_eq_vs m' (i4 h4)]
  · by_cases h3 : 45 ≤ m.recent_buys ∧ 10000 ≤ m.volume ∧ 100 ≤ m.avg_buy
    · have hm : determine_tier m = some .STRONG := by
        unfold determine_tier
        rw [if_neg h4, if_pos h3]
      rw [hm]
      exact tierRank_ge_of_strong m' (i3 h3)
    · by_cases h2 : 30 ≤ m.recent_buys ∧ 6000 ≤ m.volume ∧ 75 ≤ m.avg_buy
      · have hm : determine_tier m = some .MEDIUM := by
          unfold determine_tier
          rw [if_neg h4, if_neg h3, if_pos h2]
        rw [hm]
        exact tierRank_ge_of_medium m' (i2 h2)
      · by_cases hf : 20 ≤ m.recent_buys ∧ 3000 ≤ m.volume ∧ 50 ≤ m.avg_buy
        · have hm : determine_tier m = some .FIRST_CALL := by
            unfold determine_tier
            rw [if_neg h4, if_neg h3, if_neg h2, if_pos hf]
          rw [hm]
          exact tierRank_ge_of_first_call m' (i1 hf)
        · have hm : determine_tier m = none := by
            unfold determine_tier
            rw [if_neg h4, if_neg h3, if_neg h2, if_neg hf]
          rw [hm]
          exact Nat.zero_le _

/-- Witness for C7: raising recent buys from 25 to 50 with volume and
average fixed does not lower the tier. -/
theorem determine_tier_monotone_witness :
    tierRank (determine_tier ⟨25, 4000, 160, 50, 10, 8000⟩)
      ≤ tierRank (determine_tier ⟨50, 4000, 160, 100, 10, 8000⟩) :=
  determine_tier_monotone ⟨25, 4000, 160, 50, 10, 8000⟩ ⟨50, 4000, 160, 100, 10, 8000⟩
    (Or.inl (by refine ⟨by decide, rfl, rfl⟩))

/-- Claim C8: whenever the clock reads at least 10 days past the epoch
(always true at runtime), `perform_safety_checks` reports
`liquidity_ok` exactly for liquidity strictly above 5000 and `age_ok`
exactly for a present creation timestamp whose age is strictly below
240 hours; a missing timestamp fails closed. -/
theorem perform_safety_checks_spec (pair : PairSnapshot) (now : ℚ)
    (hnow : 864000 ≤ now) :
    ((perform_safety_checks pair now).liquidity_ok = true ↔ 5000 < pair.liquidityUsd)
    ∧ ((perform_safety_checks pair now).age_ok = true ↔
        ∃ t, pair.pairCreatedAt = some t ∧ (now - (t : ℚ) / 1000) / 3600 < 240) := by
  constructor
  · simp [perform_safety_checks]
  · unfold perform_safety_checks
    rcases hc : pair.pairCreatedAt with _ | t
    · simp [hc]
    · by_cases ht : t = 0
      · subst ht
        simp [hc]
        rw [le_div_iff₀ (by norm_num : (0 : ℚ) < 3600)]
        linarith
      · simp [hc, ht]

/-- Witness for C8: a pair created 1000 seconds ago with 6000 liquidity
passes both checks as the claim predicts. -/
theorem perform_safety_checks_spec_witness :
    ((perform_safety_checks pairRecent 1700000000).liquidity_ok = true ↔
      5000 < pairRecent.liquidityUsd)
    ∧ ((perform_safety_checks pairRecent 1700000000).age_ok = true ↔
        ∃ t, pairRecent.pairCreatedAt = some t
          ∧ ((1700000000 : ℚ) - (t : ℚ) / 1000) / 3600 < 240) :=
  perform_safety_checks_spec pairRecent 1700000000 (by norm_num)

set_option maxRecDepth 8000

/-- Claim C2 (code bug): the trim step is not FIFO.  `list(set)` may
enumerate a Python set in any order; reversal is one such permutation,
and under it inserting the 101 distinct identities 0..100 evicts the
101st identity, leaving the 1st still present — the code's own
"keep only last 100" comment and the spec's FIFO contract both fail.
The size bound itself does hold: the final set has 100 elements. -/
theorem alerted_tokens_trim_not_fifo :
    (∀ l : List Nat, l.reverse.Perm l)
    ∧ 0 ∈ (List.range 101).foldl (insertAndTrim List.reverse) ([] : List Nat)
    ∧ 100 ∉ (List.range 101).foldl (insertAndTrim List.reverse) ([] : List Nat)
    ∧ ((List.range 101).foldl (insertAndTrim List.reverse) ([] : List Nat)).length = 100 :=
  ⟨fun l => l.reverse_perm, by decide, by decide, by decide⟩

/-- Claim C3 (code bug): marking and persisting are not atomic.
Starting from an empty ledger and store, committing the winning pair
"P" while `save_call` raises leaves "P" recorded in `alerted_tokens`
and no AlertRecord in the store — the two disagree, and the pair is
never re-evaluated. -/
theorem commitAlert_mark_survives_persist_failure :
    ("P" ∈ (commitAlert id ⟨[], []⟩ ⟨"T", "P", "S", "N", 1, 1, "STRONG", 0⟩ false).alerted)
    ∧ (commitAlert id ⟨[], []⟩ ⟨"T", "P", "S", "N", 1, 1, "STRONG", 0⟩ false).calls = [] := by
  constructor
  · simp [commitAlert, insertSet]
  · rfl

/-- Helper: one `update_peak_price` write relates the old and new table
pointwise — initial prices untouched, peak prices never lowered. -/
theorem update_peak_price_rel (db : List CallRecord) (pr : String) (np : ℚ) :
    List.Forall₂
      (fun r r' : CallRecord =>
        r.initial_price = r'.initial_price ∧ r.peak_price ≤ r'.peak_price)
      db (update_peak_price db pr np).1 := by
  unfold update_peak_price
  dsimp only
  induction db with
  | nil => exact List.Forall₂.nil
  | cons a l ih =>
    simp only [List.map_cons]
    refine List.Forall₂.cons ?_ ih
    by_cases h : a.pair_address = pr ∧ a.peak_price < np
    · rw [if_pos h]
      exact ⟨rfl, le_of_lt h.2⟩
    · rw [if_neg h]
      exact ⟨rfl, le_refl _⟩

/-- Helper: the pointwise initial-fixed / peak-non-decreasing relation
composes along successive tables. -/
theorem peakRel_comp {l1 l2 l3 : List CallRecord}
    (h1 : List.Forall₂
      (fun r r' : CallRecord =>
        r.initial_price = r'.initial_price ∧ r.peak_price ≤ r'.peak_price) l1 l2)
    (h2 : List.Forall₂
      (fun r r' : CallRecord =>
        r.initial_price = r'.initial_price ∧ r.peak_price ≤ r'.peak_price) l2 l3) :
    List.Forall₂
      (fun r r' : CallRecord =>
        r.initial_price = r'.initial_price ∧ r.peak_price ≤ r'.peak_price) l1 l3 := by
  induction h1 generalizing l3 with
  | nil =>
    cases h2
    exact List.Forall₂.nil
  | cons hab _ ih =>
    cases h2 with
    | cons hbc htail =>
      exact List.Forall₂.cons ⟨hab.1.trans hbc.1, hab.2.trans hbc.2⟩ (ih htail)

/-- Helper: one `update_peak_price` write preserves the per-record
invariant `initial_price ≤ peak_price`. -/
theorem update_peak_price_inv (db : List CallRecord) (pr : String) (np : ℚ)
    (h : ∀ r ∈ db, r.initial_price ≤ r.peak_price) :
    ∀ r ∈ (update_peak_price db pr np).1, r.initial_price ≤ r.peak_price := by
  unfold update_peak_price
  dsimp only
  intro r hr
  rw [List.mem_map] at hr
  obtain ⟨a, ha, hra⟩ := hr
  by_cases hc : a.pair_address = pr ∧ a.peak_price < np
  · rw [if_pos hc] at hra
    subst hra
    exact le_trans (h a ha) (le_of_lt hc.2)
  · rw [if_neg hc] at hra
    subst hra
    exact h a ha

/-- Claim C4: a call record is created with `peak_price` equal to
`initial_price`, and across any sequence of `update_peak_price` writes
every record's peak price is non-decreasing and stays at or above its
initial price. -/
theorem peak_price_monotone_invariant (db : List CallRecord) (ups : List (String × ℚ))
    (hinv : ∀ r ∈ db, r.initial_price ≤ r.peak_price) :
    List.Forall₂
      (fun r r' : CallRecord =>
        r.initial_price = r'.initial_price ∧ r.peak_price ≤ r'.peak_price)
      db (applyPeakUpdates db ups)
    ∧ (∀ r ∈ applyPeakUpdates db ups, r.initial_price ≤ r.peak_price)
    ∧ (∀ tok pr sym nm p tier t,
        ∀ r ∈ save_call db tok pr sym nm p tier t,
          r ∈ db ∨ (r.initial_price = p ∧ r.peak_price = p)) := by
  refine ⟨?_, ?_, ?_⟩
  · clear hinv
    induction ups generalizing db with
    | nil =>
      exact List.forall₂_same.mpr fun r _ => ⟨rfl, le_refl _⟩
    | cons u us ih =>
      exact peakRel_comp (update_peak_price_rel db u.1 u.2)
        (ih (update_peak_price db u.1 u.2).1)
  · induction ups generalizing db with
    | nil => exact hinv
    | cons u us ih =>
      exact ih (update_peak_price db u.1 u.2).1
        (update_peak_price_inv db u.1 u.2 hinv)
  · intro tok pr sym nm p tier t r hr
    unfold save_call at hr
    rw [List.mem_append] at hr
    rcases hr with hr | hr
    · exact Or.inl hr
    · rcases List.mem_singleton.mp hr with rfl
      exact Or.inr ⟨rfl, rfl⟩

/-- Witness for C4 at a one-row table receiving one peak update. -/
theorem peak_price_monotone_invariant_witness :
    List.Forall₂
      (fun r r' : CallRecord =>
        r.initial_price = r'.initial_price ∧ r.peak_price ≤ r'.peak_price)
      [⟨"TOK1", "PAIR1", "SYM1", "NAME1", 1, 1, "STRONG", 0⟩]
      (applyPeakUpdates [⟨"TOK1", "PAIR1", "SYM1", "NAME1", 1, 1, "STRONG", 0⟩]
        [("PAIR1", 5)])
    ∧ (∀ r ∈ applyPeakUpdates [⟨"TOK1", "PAIR1", "SYM1", "NAME1", 1, 1, "STRONG", 0⟩]
        [("PAIR1", 5)], r.initial_price ≤ r.peak_price)
    ∧ (∀ tok pr sym nm p tier t,
        ∀ r ∈ save_call [⟨"TOK1", "PAIR1", "SYM1", "NAME1", 1, 1, "STRONG", 0⟩]
          tok pr sym nm p tier t,
          r ∈ [⟨"TOK1", "PAIR1", "SYM1", "NAME1", 1, 1, "STRONG", 0⟩]
          ∨ (r.initial_price = p ∧ r.peak_price = p)) :=
  peak_price_monotone_invariant [⟨"TOK1", "PAIR1", "SYM1", "NAME1", 1, 1, "STRONG", 0⟩]
    [("PAIR1", 5)] (by decide)

/-- Helper: the descending sort key order is reflexive. -/
theorem keyLe_refl (x : Candidate) : keyLe x x :=
  Or.inr ⟨rfl, le_refl _⟩

/-- Helper: the descending sort key order is transitive. -/
theorem keyLe_trans {x y z : Candidate} (h1 : keyLe x y) (h2 : keyLe y z) :
    keyLe x z := by
  rcases h1 with h1 | ⟨e1, v1⟩
  · rcases h2 with h2 | ⟨e2, v2⟩
    · exact Or.inl (lt_trans h1 h2)
    · exact Or.inl (by rw [← e2]; exact h1)
  · rcases h2 with h2 | ⟨e2, v2⟩
    · exact Or.inl (by rw [e1]; exact h2)
    · exact Or.inr ⟨e1.trans e2, le_trans v1 v2⟩

/-- Helper: the descending sort key order is total. -/
theorem keyLe_total (x y : Candidate) : keyLe x y ∨ keyLe y x := by
  unfold keyLe
  rcases lt_trichotomy x.priority y.priority with h | h | h
  · exact Or.inl (Or.inl h)
  · rcases le_total x.volume y.volume with hv | hv
    · exact Or.inl (Or.inr ⟨h, hv⟩)
    · exact Or.inr (Or.inr ⟨h.symm, hv⟩)
  · exact Or.inr (Or.inl h)

/-- Helper: membership through `insertDesc`. -/
theorem mem_insertDesc (x a : Candidate) (l : List Candidate) :
    a ∈ insertDesc x l ↔ a = x ∨ a ∈ l := by
  induction l with
  | nil => simp [insertDesc]
  | cons y ys ih =>
    unfold insertDesc
    by_cases h : keyLe y x
    · rw [if_pos h]
      simp
    · rw [if_neg h]
      simp only [List.mem_cons, ih]
      tauto

/-- Helper: `insertDesc` keeps the head of the list maximal under
`keyLe`. -/
theorem head_insertDesc_max (x : Candidate) (l : List Candidate)
    (hl : ∀ c, l.head? = some c → ∀ a ∈ l, keyLe a c) :
    ∀ c, (insertDesc x l).head? = some c → ∀ a ∈ insertDesc x l, keyLe a c := by
  cases l with
  | nil =>
    intro c hc a ha
    simp [insertDesc] at hc ha
    rw [← hc, ha]
    exact keyLe_refl x
  | cons y ys =>
    by_cases h : keyLe y x
    · intro c hc a ha
      unfold insertDesc at hc ha
      rw [if_pos h] at hc ha
      rw [List.head?_cons, Option.some.injEq] at hc
      subst hc
      rcases List.mem_cons.mp ha with rfl | ha'
      · exact keyLe_refl _
      · exact keyLe_trans (hl y rfl a ha') h
    · intro c hc a ha
      unfold insertDesc at hc ha
      rw [if_neg h] at hc ha
      rw [List.head?_cons, Option.some.injEq] at hc
      subst hc
      rcases List.mem_cons.mp ha with rfl | ha'
      · exact keyLe_refl _
      · rw [mem_insertDesc] at ha'
        rcases ha' with rfl | ha''
        · rcases keyLe_total a y with hk | hk
          · exact hk
          · exact absurd hk h
        · exact hl y rfl a (List.mem_cons_of_mem y ha'')

/-- Helper: `sortSignals` permutes membership and its head is maximal
under `keyLe`. -/
theorem sortSignals_head_max (l : List Candidate) :
    (∀ a ∈ sortSignals l, a ∈ l)
    ∧ (∀ a ∈ l, a ∈ sortSignals l)
    ∧ ∀ c, (sortSignals l).head? = some c → ∀ a ∈ sortSignals l, keyLe a c := by
  induction l with
  | nil =>
    refine ⟨?_, ?_, ?_⟩ <;> intro a ha <;> cases ha
  | cons x xs ih =>
    have hs : sortSignals (x :: xs) = insertDesc x (sortSignals xs) := rfl
    refine ⟨?_, ?_, ?_⟩
    · intro a ha
      rw [hs, mem_insertDesc] at ha
      rcases ha with rfl | ha'
      · exact List.mem_cons_self _ _
      · exact List.mem_cons_of_mem x (ih.1 a ha')
    · intro a ha
      rw [hs, mem_insertDesc]
      rcases List.mem_cons.mp ha with rfl | ha'
      · exact Or.inl rfl
      · exact Or.inr (ih.2.1 a ha')
    · rw [hs]
      exact head_insertDesc_max x (sortSignals xs) ih.2.2

/-- Claim C6: at most one candidate is alerted per cycle, and the one
`selectBest` returns is maximal among the cycle's qualifiers under the
lexicographic order tierPriority descending then windowVolume
descending, with VERY_STRONG=4, STRONG=3, MEDIUM=2, FIRST_CALL=1. -/
theorem ranker_selects_best (l : List Candidate) :
    (l = [] → selectBest l = none)
    ∧ ∀ c, selectBest l = some c →
        (∀ x ∈ l, x.priority = tierPriority x.tier) →
        c ∈ l ∧ ∀ x ∈ l,
          tierPriority x.tier < tierPriority c.tier
          ∨ (tierPriority x.tier = tierPriority c.tier ∧ x.volume ≤ c.volume) := by
  constructor
  · rintro rfl
    rfl
  · intro c hc hpri
    have hmax := sortSignals_head_max l
    unfold selectBest at hc
    have hcmem : c ∈ sortSignals l := by
      cases hsort : sortSignals l with
      | nil => rw [hsort] at hc; cases hc
      | cons b bs =>
        rw [hsort] at hc
        rw [List.head?_cons, Option.some.injEq] at hc
        rw [← hc]
        exact List.mem_cons_self _ _
    have hcl : c ∈ l := hmax.1 c hcmem
    refine ⟨hcl, ?_⟩
    intro x hx
    have hkey : keyLe x c := hmax.2.2 c hc x (hmax.2.1 x hx)
    rcases hkey with hlt | ⟨heq, hv⟩
    · left
      rw [← hpri x hx, ← hpri c hcl]
      exact hlt
    · right
      exact ⟨by rw [← hpri x hx, ← hpri c hcl]; exact heq, hv⟩

/-- Witness for C6: against A = (STRONG, 11000) and B = (VERY_STRONG,
9000) the ranker alerts B, and B dominates both candidates. -/
theorem ranker_selects_best_witness :
    selectBest [⟨"A", .STRONG, 3, 11000⟩, ⟨"B", .VERY_STRONG, 4, 9000⟩]
      = some ⟨"B", .VERY_STRONG, 4, 9000⟩
    ∧ (⟨"B", .VERY_STRONG, 4, 9000⟩ : Candidate)
        ∈ [⟨"A", .STRONG, 3, 11000⟩, ⟨"B", .VERY_STRONG, 4, 9000⟩]
    ∧ ∀ x ∈ [(⟨"A", .STRONG, 3, 11000⟩ : Candidate), ⟨"B", .VERY_STRONG, 4, 9000⟩],
        tierPriority x.tier < tierPriority Tier.VERY_STRONG
        ∨ (tierPriority x.tier = tierPriority Tier.VERY_STRONG ∧ x.volume ≤ 9000) := by
  have hsel : selectBest [⟨"A", .STRONG, 3, 11000⟩, ⟨"B", .VERY_STRONG, 4, 9000⟩]
      = some ⟨"B", .VERY_STRONG, 4, 9000⟩ := by decide
  exact ⟨hsel,
    (ranker_selects_best [⟨"A", .STRONG, 3, 11000⟩, ⟨"B", .VERY_STRONG, 4, 9000⟩]).2
      ⟨"B", .VERY_STRONG, 4, 9000⟩ hsel (by decide)⟩

/-- Helper: the proximity-scoring fold yields a champion on any
non-empty pool. -/
theorem bestScored_isSome (cfg : CategoryFilter) (l : List CategorySnapshot)
    (hl : l ≠ []) : (bestScored cfg l).isSome = true := by
  have key : ∀ (l' : List CategorySnapshot) (acc : Option (CategorySnapshot × ℚ)),
      acc.isSome = true →
      (l'.foldl
        (fun acc c =>
          match acc with
          | none => some (c, proximityScore cfg c)
          | some (y, s) =>
            if s < proximityScore cfg c then some (c, proximityScore cfg c)
            else some (y, s))
        acc).isSome = true := by
    intro l'
    induction l' with
    | nil => intro acc h; exact h
    | cons d ds ih =>
      intro acc h
      rcases acc with _ | ⟨y, s⟩
      · cases h
      · simp only [List.foldl_cons]
        apply ih
        by_cases hlt : s < proximityScore cfg d
        · rw [if_pos hlt]; rfl
        · rw [if_neg hlt]; rfl
  cases l with
  | nil => exact absurd rfl hl
  | cons c cs =>
    unfold bestScored
    simp only [List.foldl_cons]
    exact key cs (some (c, proximityScore cfg c)) rfl

/-- Claim C9 (spec-modelled): the three-tier fallback returns a
candidate whenever at least one unseen pool member has liquidity
strictly above 5000, and returns none only when no unseen member
exceeds that floor. -/
theorem fallback_scorer_total (pool : List CategorySnapshot) (cfg : CategoryFilter)
    (shown : List String) :
    ((∃ c ∈ pool, ¬ shown.contains c.pairAddress ∧ 5000 < c.liquidity) →
      (selectForCategory pool cfg shown).isSome = true)
    ∧ (selectForCategory pool cfg shown = none →
      ∀ c ∈ pool, ¬ shown.contains c.pairAddress → c.liquidity ≤ 5000) := by
  have main : (∃ c ∈ pool, ¬ shown.contains c.pairAddress ∧ 5000 < c.liquidity) →
      (selectForCategory pool cfg shown).isSome = true := by
    rintro ⟨c, hcpool, hcs, hcl⟩
    unfold selectForCategory
    dsimp only
    have hcu : c ∈ pool.filter fun c => !(shown.contains c.pairAddress) := by
      rw [List.mem_filter]
      exact ⟨hcpool, by simpa using hcs⟩
    cases hfind : (pool.filter fun c => !(shown.contains c.pairAddress)).find?
        (exactMatch cfg) with
    | some d => exact rfl
    | none =>
      have hne : (pool.filter fun c => !(shown.contains c.pairAddress)) ≠ [] := by
        intro h
        rw [h] at hcu
        cases hcu
      obtain ⟨⟨d, s⟩, hbs⟩ :=
        Option.isSome_iff_exists.mp
          (bestScored_isSome cfg (pool.filter fun c => !(shown.contains c.pairAddress)) hne)
      rw [hbs]
      dsimp only
      by_cases hs : 0 < s
      · rw [if_pos hs]; rfl
      · rw [if_neg hs]
        simp only [List.find?_isSome]
        exact ⟨c, hcu, by simpa using hcl⟩
  refine ⟨main, ?_⟩
  intro hnone c hc hcs
  by_contra hlq
  push_neg at hlq
  have := main ⟨c, hc, hcs, hlq⟩
  rw [hnone] at this
  cases this

/-- Witness for C9: a pool holding one unseen candidate of liquidity
6000 yields a selection even under category bounds it misses entirely. -/
theorem fallback_scorer_total_witness :
    (∃ c ∈ [(⟨"C1", 6000, 0, 0, 0⟩ : CategorySnapshot)],
      ¬ ([] : List String).contains c.pairAddress ∧ 5000 < c.liquidity)
    ∧ (selectForCategory [⟨"C1", 6000, 0, 0, 0⟩]
        ⟨100000, 200000, 10, 20, 1, 2, 5⟩ []).isSome = true :=
  ⟨⟨⟨"C1", 6000, 0, 0, 0⟩, by decide, by decide, by decide⟩,
   (fallback_scorer_total [⟨"C1", 6000, 0, 0, 0⟩] ⟨100000, 200000, 10, 20, 1, 2, 5⟩ []).1
     ⟨⟨"C1", 6000, 0, 0, 0⟩, by decide, by decide, by decide⟩⟩

end SolanaTracker
